import Mathlib

/-!
Verification development for the amplify-gen2-bedrock-playground repository.

The repository is a TypeScript frontend plus Amplify backend declarations.
The frontend click handlers (the callers of the pipeline operations) are
embedded here as pure state-transition functions.  JavaScript runtime
values exchanged through JSON are modelled by the inductive type `JVal`;
a string that holds the JSON encoding of a value `v` is modelled
symbolically as `JVal.jEnc v`, so that `JSON.parse` becomes the partial
function `jsonParse` (it also models the JavaScript coercion cases in
which `JSON.parse` of a number, boolean or null succeeds).  Strings held
in `JVal.jStr` stand for strings that are not valid JSON text.

The backend lambda handlers (FAISS index search, RAG orchestration,
graph extraction/validation) are not part of the repository sources;
where a claim depends on them they are modelled from the specification,
and each such definition carries a doc comment saying so.
-/

/-- Model of a JavaScript runtime value as exchanged through the JSON
envelopes of this application.  `jEnc v` is a string whose text is the
JSON encoding of `v`; `jUndef` is the JavaScript value undefined. -/
inductive JVal where
  | jUndef
  | jNull
  | jBool (b : Bool)
  | jNum (n : Int)
  | jStr (s : String)
  | jEnc (v : JVal)
  | jArr (elems : List JVal)
  | jObj (fields : List (String × JVal))
deriving Repr

/-- Model of JSON.parse.  On an encoded string it yields the encoded
value; numbers, booleans and null coerce to their decimal/word text and
parse back to themselves; everything else (undefined, non-JSON strings,
arrays and objects, whose String() coercions are not valid JSON) throws,
modelled as `none`. -/
def jsonParse : JVal → Option JVal
  | .jEnc v => some v
  | .jNum n => some (.jNum n)
  | .jBool b => some (.jBool b)
  | .jNull => some .jNull
  | _ => none

/-- JavaScript truthiness of a value. -/
def jsTruthy : JVal → Bool
  | .jUndef => false
  | .jNull => false
  | .jBool b => b
  | .jNum n => !(n == 0)
  | .jStr s => !(s == "")
  | .jEnc _ => true
  | .jArr _ => true
  | .jObj _ => true

/-- JavaScript `a || b`. -/
def jsOr (a b : JVal) : JVal := if jsTruthy a then a else b

/-- Property access with optional-chaining semantics: on an object it
returns the field value or undefined; on anything else it returns
undefined.  (Plain access on null/undefined throws instead; handler
embeddings guard that case by matching on `jNull`/`jUndef` first.) -/
def jGetOpt : JVal → String → JVal
  | .jObj fs, key => (fs.lookup key).getD .jUndef
  | _, _ => ( .jUndef : JVal)

/-- Index access `v[i]`: on an array it returns the element or undefined
when out of range; on null/undefined it throws (`none`); on other values
it returns undefined. -/
def jIndexOpt : JVal → Nat → Option JVal
  | .jArr xs, i => some (xs.getD i .jUndef)
  | .jNull, _ => none
  | .jUndef, _ => none
  | _, _ => some ( .jUndef : JVal)

/-- Strict equality test `v === n` against a number literal. -/
def isNum (v : JVal) (n : Int) : Bool :=
  match v with
  | .jNum m => m == n
  | _ => false

/-- Strict equality test `v === s` against a string literal (an encoded
JSON text is never the bare word used in these comparisons). -/
def isStr (v : JVal) (s : String) : Bool :=
  match v with
  | .jStr t => t == s
  | _ => false

/-- Field names of an object value, in declaration order. -/
def jKeys : JVal → List String
  | .jObj fs => fs.map Prod.fst
  | _ => []

/-- Escape of one character inside a JSON string literal. -/
def escapeChar (c : Char) : String :=
  if c = '"' then "\\\"" else if c = '\\' then "\\\\" else String.singleton c

/-- Escape of a string body for a JSON string literal. -/
def escapeString (s : String) : String := String.join (s.toList.map escapeChar)

/-- Quoted JSON string literal. -/
def quoteString (s : String) : String := "\"" ++ escapeString s ++ "\""

mutual

/-- JSON text of a value (the text `jEnc v` stands for). -/
def jsonEncode : JVal → String
  | .jUndef => "undefined"
  | .jNull => "null"
  | .jBool true => "true"
  | .jBool false => "false"
  | .jNum n => toString n
  | .jStr s => quoteString s
  | .jEnc v => quoteString (jsonEncode v)
  | .jArr xs => "[" ++ jsonEncodeList xs ++ "]"
  | .jObj fs => "\x7b" ++ jsonEncodeFields fs ++ "\x7d"

/-- Comma-joined JSON texts of array elements. -/
def jsonEncodeList : List JVal → String
  | [] => ""
  | [x] => jsonEncode x
  | x :: y :: xs => jsonEncode x ++ "," ++ jsonEncodeList (y :: xs)

/-- Comma-joined JSON texts of object fields. -/
def jsonEncodeFields : List (String × JVal) → String
  | [] => ""
  | [(k, v)] => quoteString k ++ ":" ++ jsonEncode v
  | (k, v) :: f :: fs => quoteString k ++ ":" ++ jsonEncode v ++ "," ++ jsonEncodeFields (f :: fs)

end

mutual

/-- JavaScript String() coercion as used by template literals. -/
def jsDisplay : JVal → String
  | .jUndef => "undefined"
  | .jNull => "null"
  | .jBool true => "true"
  | .jBool false => "false"
  | .jNum n => toString n
  | .jStr s => s
  | .jEnc v => jsonEncode v
  | .jArr xs => jsDisplayList xs
  | .jObj _ => "[object Object]"

/-- Array toString: elements joined by commas, null/undefined as empty. -/
def jsDisplayList : List JVal → String
  | [] => ""
  | [.jUndef] => ""
  | [.jNull] => ""
  | [x] => jsDisplay x
  | .jUndef :: y :: xs => "," ++ jsDisplayList (y :: xs)
  | .jNull :: y :: xs => "," ++ jsDisplayList (y :: xs)
  | x :: y :: xs => jsDisplay x ++ "," ++ jsDisplayList (y :: xs)

end

/-- Test for the JavaScript idiom `!s.trim()`: true exactly when the
string trims to empty, i.e. every character is whitespace. -/
def jsBlank (s : String) : Bool := s.toList.all Char.isWhitespace

/-- Message of the SyntaxError thrown by a failed JSON.parse (the engine
text is irrelevant to the properties proved here; a fixed stand-in is
used). -/
def jsonParseFailureMessage : String := "Unexpected token in JSON"

/-- Message of the TypeError thrown when destructuring or reading a
property of null or undefined. -/
def nullAccessMessage : String := "Cannot read properties of null or undefined"

/-- Transport envelope `\x7b statusCode, body \x7d` as an object value. -/
def mkEnvelope (statusCode body : JVal) : JVal :=
  .jObj [("statusCode", statusCode), ("body", body)]

/-- Decode sequence shared by the convertTextToGraph,
convertNodeRelationJsonToOpenCypherQuery and
executeOpenCypherQueryForNeptune click handlers: parse the transport
data string, destructure statusCode and body, throw on a statusCode
other than 200 with a message built from the body, otherwise parse the
body string and return its value.  `failPrefix` is the handler-specific
text put before the body in the thrown message. -/
def decodeStatusBody (failPrefix : String) (dataV : JVal) : Except String JVal :=
  match jsonParse dataV with
  | none => .error jsonParseFailureMessage
  | some parsedData =>
    match parsedData with
    | .jNull => .error nullAccessMessage
    | .jUndef => .error nullAccessMessage
    | _ =>
      if !(isNum (jGetOpt parsedData "statusCode") 200) then
        .error (failPrefix ++ jsDisplay (jsOr (jGetOpt parsedData "body") (JVal.jStr "Unknown error")))
      else
        match jsonParse (jGetOpt parsedData "body") with
        | none => .error jsonParseFailureMessage
        | some v => .ok v

/-- Page state of the convertTextToGraph page (src/unnamed/part_004):
the Graph useState (null initially) and the error useState. -/
structure GraphGenState where
  graph : Option JVal
  error : Option String
deriving Repr

/-- Embedding of the convertTextToGraph click handler
(src/unnamed/part_004 lines 28-64).  `remote` is the outcome of the
single client.queries.convertTextToGraph call: `.error m` a rejected
call (a thrown Error with message m), `.ok v` the response.data value.
Result: the final page state, and, when the backend query was issued,
the page state at the moment of the call (the handler clears error and
graph before calling). -/
def convertTextToGraph (st : GraphGenState) (graphDescription : String)
    (remote : Except String JVal) : GraphGenState × Option GraphGenState :=
  if jsBlank graphDescription then
    ({ st with error := some "Please enter a graph description" }, none)
  else
    let preCall : GraphGenState := { graph := none, error := none }
    let final : GraphGenState :=
      match remote with
      | .error e => { preCall with error := some e }
      | .ok dataV =>
        match decodeStatusBody "Failed to generate graph: " dataV with
        | .error m => { preCall with error := some m }
        | .ok graphData => { preCall with graph := some graphData }
    (final, some preCall)

/-- Page state of the Employee Talent Graph page (src/unnamed/part_003):
graph, openCypherQuery and neptuneQueryResult useStates (the latter two
are string-typed in the source but store JSON.parse results, so they are
modelled as values), plus the error useState. -/
structure TalentGraphState where
  graph : JVal
  openCypherQuery : JVal
  neptuneQueryResult : JVal
  error : Option String
deriving Repr

/-- Decode sequence of the convertTextToNodeRelationJson click handler
(src/unnamed/part_003 lines 273-294): the transport data string is
parsed twice in a row, then the body field of the resulting envelope is
parsed; there is no statusCode check. -/
def decodeNodeRelationJson (dataV : JVal) : Except String JVal :=
  match jsonParse dataV with
  | none => .error jsonParseFailureMessage
  | some once =>
    match jsonParse once with
    | none => .error jsonParseFailureMessage
    | some parsedData =>
      match parsedData with
      | .jNull => .error nullAccessMessage
      | .jUndef => .error nullAccessMessage
      | _ =>
        match jsonParse (jGetOpt parsedData "body") with
        | none => .error jsonParseFailureMessage
        | some graphData => .ok graphData

/-- Embedding of the convertTextToNodeRelationJson click handler
(src/unnamed/part_003 lines 264-294).  Second component: number of
backend queries issued during the invocation. -/
def convertTextToNodeRelationJson (st : TalentGraphState) (graphDescription : String)
    (remote : Except String JVal) : TalentGraphState × Nat :=
  if jsBlank graphDescription then
    ({ st with error := some "Please enter a graph description" }, 0)
  else
    let st1 : TalentGraphState := { st with error := none }
    let final : TalentGraphState :=
      match remote with
      | .error e => { st1 with error := some e }
      | .ok dataV =>
        match decodeNodeRelationJson dataV with
        | .error m => { st1 with error := some m }
        | .ok graphData => { st1 with graph := graphData }
    (final, 1)

/-- Embedding of the convertNodeRelationJsonToOpenCypherQuery click
handler (src/unnamed/part_003 lines 296-332). -/
def convertNodeRelationJsonToOpenCypherQuery (st : TalentGraphState)
    (remote : Except String JVal) : TalentGraphState × Nat :=
  if !(jsTruthy st.graph) then
    ({ st with error := some "Please generate a graph first" }, 0)
  else
    let st1 : TalentGraphState := { st with error := none }
    let final : TalentGraphState :=
      match remote with
      | .error e => { st1 with error := some e }
      | .ok dataV =>
        match decodeStatusBody "Failed to generate OpenCypher query: " dataV with
        | .error m => { st1 with error := some m }
        | .ok q => { st1 with openCypherQuery := q }
    (final, 1)

/-- Embedding of the executeOpenCypherQueryForNeptune click handler
(src/unnamed/part_003 lines 334-375).  The query and endpoint are the
string contents of the corresponding inputs. -/
def executeOpenCypherQueryForNeptune (st : TalentGraphState)
    (openCypherQuery neptuneEndpoint : String)
    (remote : Except String JVal) : TalentGraphState × Nat :=
  if jsBlank openCypherQuery || jsBlank neptuneEndpoint then
    ({ st with error := some "Please enter an OpenCypher query and Neptune endpoint" }, 0)
  else
    let st1 : TalentGraphState := { st with error := none }
    let final : TalentGraphState :=
      match remote with
      | .error e => { st1 with error := some e }
      | .ok dataV =>
        match decodeStatusBody "Failed to execute OpenCypher query: " dataV with
        | .error m => { st1 with error := some m }
        | .ok r => { st1 with neptuneQueryResult := r }
    (final, 1)

/-- Outcome of decoding one ragFaissIndex response in the RAG query
click handler. -/
inductive RagDecodeOutcome where
  | failure (msg : JVal)
  | success (parsedBody : JVal)
deriving Repr

/-- Message set by the catch block of the RAG query click handler. -/
def ragClientErrorMessage : JVal := JVal.jStr "Failed to generate an answer (client error)."

/-- Decode sequence of the RAG query click handler
(src/src/app/actCounselor/page.tsx lines 224-268): parse the transport
data string, destructure statusCode and body, reject a falsy body, parse
the body string, reject a statusCode other than 200, reject a parsed
body whose status field is the string "error", otherwise yield the
parsed body. -/
def decodeRagResponse (dataV : JVal) : RagDecodeOutcome :=
  match jsonParse dataV with
  | none => .failure ragClientErrorMessage
  | some d =>
    match d with
    | .jNull => .failure ragClientErrorMessage
    | .jUndef => .failure ragClientErrorMessage
    | _ =>
      if !(jsTruthy (jGetOpt d "body")) then .failure (JVal.jStr "No response body found.")
      else
        match jsonParse (jGetOpt d "body") with
        | none => .failure ragClientErrorMessage
        | some parsedBody =>
          if !(isNum (jGetOpt d "statusCode") 200) then
            .failure (JVal.jStr ("Error " ++ jsDisplay (jGetOpt d "statusCode") ++ ": "
              ++ jsDisplay (jsOr (jGetOpt parsedBody "message") (JVal.jStr "Request failed."))))
          else if isStr (jGetOpt parsedBody "status") "error" then
            .failure (jsOr (jGetOpt parsedBody "message") (JVal.jStr "An unknown error occurred."))
          else
            .success parsedBody

/-- Page state of the Employee Information Retriever RAG section
(src/src/app/actCounselor/page.tsx): the ragResponse and ragError
useStates (string-typed in the source but set from parsed values) and
the retrievedDocs useState (`none` models it holding undefined). -/
structure RagPageState where
  ragResponse : JVal
  ragError : JVal
  retrievedDocs : Option JVal
deriving Repr

/-- Embedding of the RAG query button onClick handler
(src/src/app/actCounselor/page.tsx lines 203-277).  Second component:
number of client.queries.ragFaissIndex calls issued. -/
def ragFaissIndexOnClick (st : RagPageState) (query : String)
    (remote : Except String JVal) : RagPageState × Nat :=
  if jsBlank query then
    ({ st with ragError := JVal.jStr "Query cannot be empty." }, 0)
  else
    let st1 : RagPageState := { st with ragResponse := JVal.jStr "", ragError := JVal.jStr "" }
    let final : RagPageState :=
      match remote with
      | .error _ => { st1 with ragError := ragClientErrorMessage }
      | .ok dataV =>
        match decodeRagResponse dataV with
        | .failure m => { st1 with ragError := m }
        | .success parsedBody =>
          { st1 with
            ragResponse := jsOr (jGetOpt parsedBody "answer") (JVal.jStr ""),
            retrievedDocs := some (jGetOpt parsedBody "retrieved_docs") }
    (final, 1)

/-- Page state of the System Prompt Selector chat section
(src/src/app/systemPromptSelector/page.tsx): the messages array, the
userMessage input and the error useState. -/
structure ConversePageState where
  messages : List JVal
  userMessage : String
  error : Option String
deriving Repr

/-- Message object pushed for the user turn, as built by handleConverse. -/
def mkUserMessage (text : String) : JVal :=
  JVal.jObj [("role", JVal.jStr "user"),
             ("content", JVal.jArr [JVal.jObj [("text", JVal.jStr text)]])]

/-- State after the catch block of handleConverse: the user message
pushed before the failing step stays in the array. -/
def converseFailed (st : ConversePageState) (pushed : List JVal) : ConversePageState :=
  { st with messages := pushed, error := some "Failed to get response from AI" }

/-- Embedding of handleConverse
(src/src/app/systemPromptSelector/page.tsx lines 220-254).  The handler
pushes the user message onto the messages array, issues one
converseSystemPrompt call, parses the response envelope and its body,
and pushes element 0 of the body messages array.  Components of the
result: the final page state; the contents of the messages array at the
moment the backend call was issued; and whether setMessages was invoked
(handleConverse never invokes it - it mutates the array through push). -/
def handleConverse (st : ConversePageState) (remote : Except String JVal) :
    ConversePageState × List JVal × Bool :=
  let pushed := st.messages ++ [mkUserMessage st.userMessage]
  let final : ConversePageState :=
    match remote with
    | .error _ => converseFailed st pushed
    | .ok dataV =>
      match jsonParse dataV with
      | none => converseFailed st pushed
      | some d =>
        match d with
        | .jNull => converseFailed st pushed
        | .jUndef => converseFailed st pushed
        | _ =>
          match jsonParse (jGetOpt d "body") with
          | none => converseFailed st pushed
          | some body =>
            match body with
            | .jNull => converseFailed st pushed
            | .jUndef => converseFailed st pushed
            | _ =>
              match jIndexOpt (jGetOpt body "messages") 0 with
              | none => converseFailed st pushed
              | some responseMessage =>
                { st with messages := pushed ++ [responseMessage], userMessage := "" }
  (final, pushed, false)

/-- Embedding of clearConversation
(src/src/app/systemPromptSelector/page.tsx lines 256-259), which, unlike
handleConverse, replaces the messages array through the setMessages
state setter (second component true). -/
def clearConversation (st : ConversePageState) : ConversePageState × Bool :=
  ({ st with messages := [], userMessage := "" }, true)

/-- Retrieved document as produced per query by the Retriever (spec
section 3); scores are modelled over the integers. -/
structure RetrievedDoc where
  doc_key : String
  doc_text : String
  score : Int
deriving Repr, DecidableEq

/-- Inner product of two embedding vectors. -/
def dot : List Int → List Int → Int
  | [], _ => 0
  | _, [] => 0
  | a :: as, b :: bs => a * b + dot as bs

/-- Insertion of one (score, doc_id) pair into a list ranked by
descending score with ties broken by ascending doc_id. -/
def insertRanked (x : Int × Nat) : List (Int × Nat) → List (Int × Nat)
  | [] => [x]
  | y :: ys =>
    if y.1 < x.1 ∨ (x.1 = y.1 ∧ x.2 ≤ y.2) then x :: y :: ys
    else y :: insertRanked x ys

/-- Ranking of scored documents: descending score, ties broken by
ascending doc_id (deterministic, as the spec requires). -/
def rankByScore : List (Int × Nat) → List (Int × Nat)
  | [] => []
  | x :: xs => insertRanked x (rankByScore xs)

/-- Modelled from the spec: the Retriever of the ragFaissIndex lambda
handler, which is not under src/ (only its schema declaration and its
frontend caller are).  Spec section 4.2: embed the query (one call to
the Embedding Service, here the function parameter `embed`), score every
indexed vector against the query vector by a normalized inner product,
break ties by ascending doc_id, return the top k annotated with the
metadata-table key and text.  Embedding vectors are modelled over the
integers. -/
def search (index : List (List Int × Nat)) (metadata : List (String × String))
    (embed : String → List Int) (query : String) (k : Nat) : List RetrievedDoc :=
  let qv := embed query
  let scored := index.map (fun p => (dot qv p.1, p.2))
  ((rankByScore scored).take k).map (fun p =>
    let md := metadata.getD p.2 ("", "")
    { doc_key := md.1, doc_text := md.2, score := p.1 })

/-- Scalar property value of a graph node or edge (spec section 3). -/
inductive Scalar where
  | sVal (v : String)
  | iVal (v : Int)
  | bVal (v : Bool)
deriving Repr, DecidableEq

/-- Graph node: labels plus a property mapping (spec section 3). -/
structure GraphNode where
  labels : List String
  properties : List (String × Scalar)
deriving Repr, DecidableEq

/-- Graph edge: endpoint references are node descriptors resolved by
identity-key lookup, not pointers (spec section 3). -/
structure GraphEdge where
  source : GraphNode
  target : GraphNode
  type : String
  properties : List (String × Scalar)
deriving Repr, DecidableEq

/-- Graph: ordered node and edge sequences (spec section 3). -/
structure Graph where
  nodes : List GraphNode
  edges : List GraphEdge
deriving Repr, DecidableEq

/-- Matching of an edge-endpoint reference against a declared node:
same labels, and every property of the reference present among the
properties of the node (identity-key lookup). -/
def nodeMatches (r n : GraphNode) : Bool :=
  r.labels == n.labels && r.properties.all (fun p => n.properties.any (fun q => p == q))

/-- Resolution of an edge-endpoint reference in a node list. -/
def resolvesIn (r : GraphNode) (nodes : List GraphNode) : Bool :=
  nodes.any (fun n => nodeMatches r n)

/-- Structural validity of an extraction payload: every edge endpoint
resolves to a node of the same payload. -/
def edgesResolve (g : Graph) : Bool :=
  g.edges.all (fun e => resolvesIn e.source g.nodes && resolvesIn e.target g.nodes)

/-- Error raised when an extraction payload fails structural
validation (spec section 7). -/
structure MalformedGraphError where
  detail : String
deriving Repr, DecidableEq

/-- Modelled from the spec: the structural validation of the Graph
Extractor (spec section 4.4), whose lambda handler is not under src/
(only its schema declaration and its frontend callers are): every edge
source/target must resolve to a node present in the same payload, else
the payload is rejected with MalformedGraphError and no partial repair
is attempted. -/
def validateGraph (g : Graph) : Except MalformedGraphError Graph :=
  if edgesResolve g then .ok g
  else .error { detail := "edge source/target does not resolve to a declared node" }

/-- Arguments of the ragFaissIndex query as declared in the data schema
(src/unnamed/part_000 lines 169-178): s3_bucket and query required, k an
optional integer. -/
structure RagQueryArgs where
  s3_bucket : String
  query : String
  k : Option Int
deriving Repr, DecidableEq

/-- Modelled from the spec: the ragFaissIndex lambda handler is not
under src/; per the spec operation table, k defaults to 5 when
omitted. -/
def ragQueryEffectiveK (args : RagQueryArgs) : Int := args.k.getD 5

/-- Modelled from the spec: the success body of the ragQuery operation
carries status, message, answer and the retrieved documents mapping. -/
def ragQuerySuccessBody (status message answer : String) (retrievedDocs : JVal) : JVal :=
  .jObj [("status", .jStr status), ("message", .jStr message),
         ("answer", .jStr answer), ("retrieved_docs", retrievedDocs)]

/-- Result of the RAG Orchestrator: the generated answer plus the
retrieved documents keyed by their position (spec section 4.3). -/
structure RagAnswerResult where
  answer : String
  retrievedDocs : List (Nat × RetrievedDoc)
deriving Repr, DecidableEq

/-- System instructions of the augmented prompt (spec section 4.3). -/
def ragSystemInstructions : String :=
  "Use the following retrieved context to answer the user question. "

/-- Retrieved text tagged with its source key (spec section 4.3). -/
def tagRetrievedDoc (d : RetrievedDoc) : String :=
  "[" ++ d.doc_key ++ "] " ++ d.doc_text

/-- Augmented prompt: system instructions, the retrieved texts in
returned order each tagged with its source key, then the user query. -/
def buildAugmentedPrompt (docs : List RetrievedDoc) (query : String) : String :=
  ragSystemInstructions ++ String.join (docs.map tagRetrievedDoc) ++ query

/-- Modelled from the spec: the RAG Orchestrator answer operation (spec
section 4.3), whose lambda handler is not under src/.  It retrieves,
builds one augmented prompt (even when retrieval is empty), calls the
Generation Service once (the function parameter `generate`), propagates
its failure without retry, and returns the raw answer plus the
retrieved set for provenance. -/
def ragOrchestratorAnswer (index : List (List Int × Nat)) (metadata : List (String × String))
    (embed : String → List Int) (generate : String → Except String String)
    (query : String) (k : Nat) : Except String RagAnswerResult :=
  let docs := search index metadata embed query k
  match generate (buildAugmentedPrompt docs query) with
  | .error e => .error e
  | .ok a => .ok { answer := a, retrievedDocs := (List.range docs.length).zip docs }

/-- Decode scheme exactly as the spec words it, for refinement
comparison with the embedded callers: one JSON.parse of the transport
data string yields the envelope, one JSON.parse of the envelope body
string yields the operation result; nothing further. -/
def specDoubleDecode (dataV : JVal) : Option JVal :=
  match jsonParse dataV with
  | none => none
  | some env => jsonParse (jGetOpt env "body")

/-- Initial state of the convertTextToGraph page with a previously
generated graph on display. -/
def st4Init : GraphGenState :=
  { graph := some (JVal.jObj [("nodes", JVal.jArr []), ("edges", JVal.jArr [])]),
    error := none }

/-- Initial state of the Employee Talent Graph page (its useStates are
seeded with parsed defaults in the source). -/
def st3Init : TalentGraphState :=
  { graph := JVal.jObj [("nodes", JVal.jArr []), ("edges", JVal.jArr [])],
    openCypherQuery := JVal.jStr "MERGE (c:Company)",
    neptuneQueryResult := JVal.jStr "",
    error := none }

/-- Initial state of the RAG page with an earlier answer and earlier
retrieved documents on display. -/
def stRagInit : RagPageState :=
  { ragResponse := JVal.jStr "earlier answer",
    ragError := JVal.jStr "",
    retrievedDocs := some (JVal.jObj
      [("0", JVal.jObj [("doc_key", JVal.jStr "a.txt"), ("doc_text", JVal.jStr "apple")])]) }

/-- Initial state of the chat section with one prior message and a
pending user input. -/
def stConverseInit : ConversePageState :=
  { messages := [mkUserMessage "hello"], userMessage := "How are you today", error := none }

/-- Assistant message object used as the backend reply in witnesses. -/
def assistantMessage : JVal :=
  JVal.jObj [("role", JVal.jStr "assistant"),
             ("content", JVal.jArr [JVal.jObj [("text", JVal.jStr "I am fine.")]])]

/-- Graph payload used as an operation result in concrete transports. -/
def exampleGraphPayload : JVal :=
  JVal.jObj [("nodes", JVal.jArr []), ("edges", JVal.jArr [])]

/-- Error body of a failed operation as the spec describes it. -/
def exampleErrorBody : JVal := JVal.jObj [("message", JVal.jStr "Internal error")]

/-- Singly JSON-encoded transport of a 200 envelope whose body encodes
a graph payload: exactly the shape that the two-decode scheme of the
spec accepts. -/
def singleEncodedTransport : JVal :=
  JVal.jEnc (mkEnvelope (JVal.jNum 200) (JVal.jEnc exampleGraphPayload))

/-- Doubly JSON-encoded transport of a 500 envelope whose body encodes
an error object. -/
def doubleEncodedNon200Transport : JVal :=
  JVal.jEnc (JVal.jEnc (mkEnvelope (JVal.jNum 500) (JVal.jEnc exampleErrorBody)))

/-- Parsed body of a 200 envelope whose status field reports an
internal error. -/
def ragErrorBody : JVal :=
  JVal.jObj [("status", JVal.jStr "error"), ("message", JVal.jStr "FAISS index not found")]

/-- Index of three embedded documents used in witnesses. -/
def sampleIndex : List (List Int × Nat) := [([1, 0], 0), ([0, 1], 1), ([1, 1], 2)]

/-- Metadata table parallel to the sample index. -/
def sampleMetadata : List (String × String) :=
  [("a.txt", "apple"), ("b.txt", "banana"), ("c.txt", "cherry")]

/-- Concrete embedding function used in witnesses. -/
def sampleEmbed : String → List Int := fun s => [Int.ofNat s.length, 1]

/-- Employee node of the concrete graphs. -/
def employeeNode : GraphNode :=
  { labels := ["Employee"], properties := [("id", Scalar.sVal "1")] }

/-- Company node of the concrete graphs. -/
def companyNode : GraphNode :=
  { labels := ["Company"], properties := [("name", Scalar.sVal "NextVision Consulting")] }

/-- Node reference that matches no declared node. -/
def ghostNode : GraphNode :=
  { labels := ["Employee"], properties := [("id", Scalar.sVal "99")] }

/-- Edge whose endpoints both resolve. -/
def worksForEdge : GraphEdge :=
  { source := employeeNode, target := companyNode, type := "WORKS_FOR", properties := [] }

/-- Edge whose source reference is dangling. -/
def danglingEdge : GraphEdge :=
  { source := ghostNode, target := companyNode, type := "WORKS_FOR", properties := [] }

/-- Graph in which every edge endpoint resolves. -/
def wellFormedGraph : Graph :=
  { nodes := [employeeNode, companyNode], edges := [worksForEdge] }

/-- Graph with a dangling edge reference. -/
def danglingGraph : Graph :=
  { nodes := [employeeNode, companyNode], edges := [danglingEdge] }

/-- Inserting one scored pair grows the ranked list by one. -/
theorem insertRanked_length (x : Int × Nat) (l : List (Int × Nat)) :
    (insertRanked x l).length = l.length + 1 := by
  induction l with
  | nil => rfl
  | cons y ys ih =>
    unfold insertRanked
    split
    · simp
    · simp [ih]

/-- Ranking preserves the number of scored pairs. -/
theorem rankByScore_length (l : List (Int × Nat)) :
    (rankByScore l).length = l.length := by
  induction l with
  | nil => rfl
  | cons x xs ih => simp [rankByScore, insertRanked_length, ih]

/-- Strings with a distinct text give distinct string values. -/
theorem jStr_ne_of_ne {a b : String} (h : a ≠ b) : JVal.jStr a ≠ JVal.jStr b := by
  intro heq
  injection heq with h2
  exact h h2

/-- Messages of the shape built for a non-200 RAG response are not
empty. -/
theorem errorTemplate_ne_empty (a b : String) : ("Error " ++ a ++ ": " ++ b) ≠ "" := by
  intro h
  have h2 := congrArg String.length h
  simp only [String.length_append] at h2
  have h3 : ("Error ").length = 6 := rfl
  have h4 : (": ").length = 2 := rfl
  have h5 : ("" : String).length = 0 := rfl
  omega

/-- Decode of a 200 envelope whose body encodes `r` succeeds with `r`
in the shared statusCode/body decode sequence. -/
theorem decodeStatusBody_success (pfx : String) (r : JVal) :
    decodeStatusBody pfx (JVal.jEnc (mkEnvelope (JVal.jNum 200) (JVal.jEnc r))) = .ok r := rfl

/-- Decode of a non-200 envelope fails with the prefixed message in the
shared statusCode/body decode sequence. -/
theorem decodeStatusBody_non200 (pfx : String) (sc body : JVal)
    (hsc : isNum sc 200 = false) :
    decodeStatusBody pfx (JVal.jEnc (mkEnvelope sc body))
      = .error (pfx ++ jsDisplay (jsOr body (JVal.jStr "Unknown error"))) := by
  have hbase : decodeStatusBody pfx (JVal.jEnc (mkEnvelope sc body))
      = if !(isNum sc 200) then
          Except.error (pfx ++ jsDisplay (jsOr body (JVal.jStr "Unknown error")))
        else
          match jsonParse body with
          | none => Except.error jsonParseFailureMessage
          | some v => Except.ok v := rfl
  rw [hbase, hsc]
  rfl

/-- Decode of the doubly encoded transport of a 200 envelope whose body
encodes `r` succeeds with `r` in the convertTextToNodeRelationJson
decode sequence. -/
theorem decodeNodeRelationJson_success (r : JVal) :
    decodeNodeRelationJson (JVal.jEnc (JVal.jEnc (mkEnvelope (JVal.jNum 200) (JVal.jEnc r))))
      = .ok r := rfl

/-- Decode of a doubly encoded non-200 envelope whose body encodes a
value still succeeds with that value in the
convertTextToNodeRelationJson decode sequence: there is no statusCode
check on this path. -/
theorem decodeNodeRelationJson_ignores_statusCode (sc r : JVal) :
    decodeNodeRelationJson (JVal.jEnc (JVal.jEnc (mkEnvelope sc (JVal.jEnc r))))
      = .ok r := rfl

/-- Reduction of the RAG response decode on an encoded envelope. -/
theorem decodeRagResponse_envelope (sc body : JVal) :
    decodeRagResponse (JVal.jEnc (mkEnvelope sc body))
      = if !(jsTruthy body) then .failure (JVal.jStr "No response body found.")
        else
          match jsonParse body with
          | none => .failure ragClientErrorMessage
          | some parsedBody =>
            if !(isNum sc 200) then
              .failure (JVal.jStr ("Error " ++ jsDisplay sc ++ ": "
                ++ jsDisplay (jsOr (jGetOpt parsedBody "message") (JVal.jStr "Request failed."))))
            else if isStr (jGetOpt parsedBody "status") "error" then
              .failure (jsOr (jGetOpt parsedBody "message") (JVal.jStr "An unknown error occurred."))
            else
              .success parsedBody := rfl

/-- Decode of a non-200 envelope in the RAG response decode sequence
always fails, whatever the body, with a message distinct from the empty
string. -/
theorem decodeRagResponse_non200 (sc body : JVal) (hsc : isNum sc 200 = false) :
    ∃ m : JVal, decodeRagResponse (JVal.jEnc (mkEnvelope sc body)) = .failure m
      ∧ m ≠ JVal.jStr "" := by
  rw [decodeRagResponse_envelope, hsc]
  cases body with
  | jUndef => exact ⟨_, rfl, jStr_ne_of_ne (by decide)⟩
  | jNull => exact ⟨_, rfl, jStr_ne_of_ne (by decide)⟩
  | jBool b =>
    cases b with
    | false => exact ⟨_, rfl, jStr_ne_of_ne (by decide)⟩
    | true => exact ⟨_, rfl, jStr_ne_of_ne (errorTemplate_ne_empty _ _)⟩
  | jNum n =>
    by_cases hn : n = 0
    · subst hn
      exact ⟨_, rfl, jStr_ne_of_ne (by decide)⟩
    · have hb : jsTruthy (JVal.jNum n) = true := by
        simp [jsTruthy, hn]
      rw [show (JVal.jNum n) = JVal.jNum n from rfl]
      simp only [hb, Bool.not_true, Bool.false_eq_true, if_false, jsonParse]
      exact ⟨_, rfl, jStr_ne_of_ne (errorTemplate_ne_empty _ _)⟩
  | jStr s =>
    by_cases hs : s = ""
    · subst hs
      exact ⟨_, rfl, jStr_ne_of_ne (by decide)⟩
    · have hb : jsTruthy (JVal.jStr s) = true := by
        simp [jsTruthy, hs]
      simp only [hb, Bool.not_true, Bool.false_eq_true, if_false, jsonParse]
      exact ⟨_, rfl, jStr_ne_of_ne (by decide)⟩
  | jEnc v => exact ⟨_, rfl, jStr_ne_of_ne (errorTemplate_ne_empty _ _)⟩
  | jArr xs => exact ⟨_, rfl, jStr_ne_of_ne (by decide)⟩
  | jObj fs => exact ⟨_, rfl, jStr_ne_of_ne (by decide)⟩

/-- Decode of a 200 envelope whose parsed body has status "error" fails
with the message of the body (or the default text) in the RAG response
decode sequence. -/
theorem decodeRagResponse_statusError (pb : JVal)
    (hst : isStr (jGetOpt pb "status") "error" = true) :
    decodeRagResponse (JVal.jEnc (mkEnvelope (JVal.jNum 200) (JVal.jEnc pb)))
      = .failure (jsOr (jGetOpt pb "message") (JVal.jStr "An unknown error occurred.")) := by
  rw [decodeRagResponse_envelope]
  simp only [jsTruthy, Bool.not_true, Bool.false_eq_true, if_false, jsonParse, isNum,
    beq_self_eq_true, hst, if_true]

/-- Decode of a 200 envelope whose parsed body does not have status
"error" succeeds with the parsed body in the RAG response decode
sequence. -/
theorem decodeRagResponse_success (pb : JVal)
    (hst : isStr (jGetOpt pb "status") "error" = false) :
    decodeRagResponse (JVal.jEnc (mkEnvelope (JVal.jNum 200) (JVal.jEnc pb)))
      = .success pb := by
  rw [decodeRagResponse_envelope]
  simp only [jsTruthy, Bool.not_true, Bool.false_eq_true, if_false, jsonParse, isNum,
    beq_self_eq_true, hst]

/-- C3: for every k at least 1 and every built index containing n
documents, search returns exactly min(k, n) RetrievedDocs. -/
theorem search_card_min (index : List (List Int × Nat)) (metadata : List (String × String))
    (embed : String → List Int) (query : String) (k : Nat) (hk : 1 ≤ k) :
    (search index metadata embed query k).length = min k index.length := by
  unfold search
  simp [List.length_take, rankByScore_length]

/-- Witness for C3 at a three-document index and k = 2. -/
theorem search_card_min_witness :
    1 ≤ 2 ∧ (search sampleIndex sampleMetadata sampleEmbed "fruit" 2).length
      = min 2 sampleIndex.length :=
  ⟨by decide, search_card_min sampleIndex sampleMetadata sampleEmbed "fruit" 2 (by decide)⟩

/-- C4: an extraction payload is accepted as a Graph exactly when every
edge source and target resolves to a node of the same payload; a
payload with a dangling edge reference is rejected with
MalformedGraphError and is not delivered as a Graph. -/
theorem validateGraph_accepts_iff (g : Graph) :
    (edgesResolve g = true → validateGraph g = .ok g) ∧
    (edgesResolve g = false →
      validateGraph g = .error
        { detail := "edge source/target does not resolve to a declared node" }) := by
  constructor <;> intro h <;> simp [validateGraph, h]

/-- Witness for C4 at a well-formed graph and a graph with a dangling
edge reference. -/
theorem validateGraph_accepts_iff_witness :
    validateGraph wellFormedGraph = .ok wellFormedGraph ∧
    validateGraph danglingGraph = .error
      { detail := "edge source/target does not resolve to a declared node" } :=
  ⟨(validateGraph_accepts_iff wellFormedGraph).1 (by decide),
   (validateGraph_accepts_iff danglingGraph).2 (by decide)⟩

/-- C5: the ragQuery operation takes the bucket and query strings plus
an optional integer k that defaults to 5 when omitted, and its success
body carries status, message, answer and retrieved_docs. -/
theorem ragQuery_default_k_and_body_fields :
    (∀ b q, ragQueryEffectiveK { s3_bucket := b, query := q, k := none } = 5) ∧
    (∀ b q kv, ragQueryEffectiveK { s3_bucket := b, query := q, k := some kv } = kv) ∧
    (∀ status message answer docs,
      jKeys (ragQuerySuccessBody status message answer docs)
        = ["status", "message", "answer", "retrieved_docs"]) :=
  ⟨fun _ _ => rfl, fun _ _ _ => rfl, fun _ _ _ _ => rfl⟩

/-- C7: when retrieval returns zero documents the RAG orchestrator
still proceeds to generation with an empty context, returning exactly
the outcome of the generation call. -/
theorem ragOrchestrator_empty_retrieval (index : List (List Int × Nat))
    (metadata : List (String × String)) (embed : String → List Int)
    (generate : String → Except String String) (query : String) (k : Nat)
    (h : search index metadata embed query k = []) :
    ragOrchestratorAnswer index metadata embed generate query k
      = (generate (buildAugmentedPrompt [] query)).map
          (fun a => { answer := a, retrievedDocs := [] }) := by
  unfold ragOrchestratorAnswer
  rw [h]
  cases hg : generate (buildAugmentedPrompt [] query) <;> simp [Except.map, hg]

/-- Witness for C7 at an empty index with a generation call that
succeeds. -/
theorem ragOrchestrator_empty_retrieval_witness :
    search [] sampleMetadata sampleEmbed "anything" 3 = [] ∧
    ragOrchestratorAnswer [] sampleMetadata sampleEmbed (fun p => .ok p) "anything" 3
      = .ok { answer := buildAugmentedPrompt [] "anything", retrievedDocs := [] } := by
  refine ⟨rfl, ?_⟩
  rw [ragOrchestrator_empty_retrieval [] sampleMetadata sampleEmbed (fun p => .ok p)
    "anything" 3 rfl]
  rfl

/-- C1 counterexample: on a singly JSON-encoded transport of a 200
envelope, the two-decode scheme of the spec yields the graph payload,
but the convertTextToNodeRelationJson caller fails (it parses the
transport data string twice) and leaves the graph unchanged, so this
caller does not obtain its result by decoding exactly twice. -/
theorem nodeRelationJson_fails_on_double_decodable_transport :
    specDoubleDecode singleEncodedTransport = some exampleGraphPayload ∧
    (convertTextToNodeRelationJson st3Init "employee data"
        (.ok singleEncodedTransport)).1.error = some jsonParseFailureMessage ∧
    (convertTextToNodeRelationJson st3Init "employee data"
        (.ok singleEncodedTransport)).1.graph = st3Init.graph :=
  ⟨rfl, rfl, rfl⟩

/-- C1 (amended): the convertTextToGraph,
convertNodeRelationJsonToOpenCypherQuery, executeOpenCypherQueryForNeptune
and ragFaissIndex callers obtain the operation result by decoding
exactly twice (transport data to envelope, envelope body to result,
matching the spec scheme specDoubleDecode); the
convertTextToNodeRelationJson caller instead parses the transport data
string twice before reading the envelope, so it needs a doubly encoded
transport - one that the two-decode scheme rejects. -/
theorem pipeline_caller_decode_depths
    (st4 : GraphGenState) (st3 st3b st3c : TalentGraphState) (stR : RagPageState)
    (desc desc2 q ep rq : String) (r pb : JVal)
    (hdesc : jsBlank desc = false) (hdesc2 : jsBlank desc2 = false)
    (hq : jsBlank q = false) (hep : jsBlank ep = false) (hrq : jsBlank rq = false)
    (hgraph : jsTruthy st3b.graph = true)
    (hst : isStr (jGetOpt pb "status") "error" = false) :
    (convertTextToGraph st4 desc
        (.ok (.jEnc (mkEnvelope (.jNum 200) (.jEnc r))))).1.graph = some r ∧
    (convertNodeRelationJsonToOpenCypherQuery st3b
        (.ok (.jEnc (mkEnvelope (.jNum 200) (.jEnc r))))).1.openCypherQuery = r ∧
    (executeOpenCypherQueryForNeptune st3 q ep
        (.ok (.jEnc (mkEnvelope (.jNum 200) (.jEnc r))))).1.neptuneQueryResult = r ∧
    (ragFaissIndexOnClick stR rq
        (.ok (.jEnc (mkEnvelope (.jNum 200) (.jEnc pb))))).1.ragResponse
      = jsOr (jGetOpt pb "answer") (JVal.jStr "") ∧
    (convertTextToNodeRelationJson st3c desc2
        (.ok (.jEnc (.jEnc (mkEnvelope (.jNum 200) (.jEnc r)))))).1.graph = r ∧
    specDoubleDecode (.jEnc (mkEnvelope (.jNum 200) (.jEnc r))) = some r ∧
    specDoubleDecode (.jEnc (.jEnc (mkEnvelope (.jNum 200) (.jEnc r)))) = none := by
  refine ⟨?_, ?_, ?_, ?_, ?_, rfl, rfl⟩
  · simp [convertTextToGraph, hdesc, decodeStatusBody_success]
  · simp [convertNodeRelationJsonToOpenCypherQuery, hgraph, decodeStatusBody_success]
  · simp [executeOpenCypherQueryForNeptune, hq, hep, decodeStatusBody_success]
  · simp [ragFaissIndexOnClick, hrq, decodeRagResponse_success pb hst]
  · simp [convertTextToNodeRelationJson, hdesc2, decodeNodeRelationJson_success]

/-- Witness for C1 (amended) at concrete inputs and payloads. -/
theorem pipeline_caller_decode_depths_witness :
    jsBlank "employee roster" = false ∧
    isStr (jGetOpt exampleGraphPayload "status") "error" = false ∧
    (convertTextToGraph st4Init "employee roster"
        (.ok (.jEnc (mkEnvelope (.jNum 200) (.jEnc exampleGraphPayload))))).1.graph
      = some exampleGraphPayload :=
  ⟨by decide, by decide,
    (pipeline_caller_decode_depths st4Init st3Init st3Init st3Init stRagInit
      "employee roster" "employee roster" "MERGE (c:Company)" "neptune-host" "who works here"
      exampleGraphPayload exampleGraphPayload
      (by decide) (by decide) (by decide) (by decide) (by decide) rfl (by decide)).1⟩

/-- C2 counterexample: on a decoded envelope with statusCode 500 the
convertTextToNodeRelationJson caller records no error and stores the
envelope body as the generated graph. -/
theorem nodeRelationJson_stores_non200_body :
    (convertTextToNodeRelationJson st3Init "employee data"
        (.ok doubleEncodedNon200Transport)).1.graph = exampleErrorBody ∧
    (convertTextToNodeRelationJson st3Init "employee data"
        (.ok doubleEncodedNon200Transport)).1.error = none :=
  ⟨rfl, rfl⟩

/-- C2 (amended): the convertTextToGraph,
convertNodeRelationJsonToOpenCypherQuery, executeOpenCypherQueryForNeptune
and ragFaissIndex callers treat every decoded envelope with a
statusCode other than 200 as a failure - an error derived from the body
is recorded and no result state is stored; the
convertTextToNodeRelationJson caller performs no statusCode check and
stores any successfully parsed body as the graph. -/
theorem non200_envelope_treated_as_failure
    (st4 : GraphGenState) (st3 st3b : TalentGraphState) (stR : RagPageState)
    (desc q ep rq : String) (sc body : JVal)
    (hdesc : jsBlank desc = false) (hq : jsBlank q = false) (hep : jsBlank ep = false)
    (hrq : jsBlank rq = false) (hgraph : jsTruthy st3b.graph = true)
    (hsc : isNum sc 200 = false) :
    ((convertTextToGraph st4 desc (.ok (.jEnc (mkEnvelope sc body)))).1.error ≠ none ∧
     (convertTextToGraph st4 desc (.ok (.jEnc (mkEnvelope sc body)))).1.graph = none) ∧
    ((convertNodeRelationJsonToOpenCypherQuery st3b
        (.ok (.jEnc (mkEnvelope sc body)))).1.error ≠ none ∧
     (convertNodeRelationJsonToOpenCypherQuery st3b
        (.ok (.jEnc (mkEnvelope sc body)))).1.openCypherQuery = st3b.openCypherQuery) ∧
    ((executeOpenCypherQueryForNeptune st3 q ep
        (.ok (.jEnc (mkEnvelope sc body)))).1.error ≠ none ∧
     (executeOpenCypherQueryForNeptune st3 q ep
        (.ok (.jEnc (mkEnvelope sc body)))).1.neptuneQueryResult = st3.neptuneQueryResult) ∧
    ((ragFaissIndexOnClick stR rq (.ok (.jEnc (mkEnvelope sc body)))).1.ragError
        ≠ JVal.jStr "" ∧
     (ragFaissIndexOnClick stR rq (.ok (.jEnc (mkEnvelope sc body)))).1.ragResponse
        = JVal.jStr "" ∧
     (ragFaissIndexOnClick stR rq (.ok (.jEnc (mkEnvelope sc body)))).1.retrievedDocs
        = stR.retrievedDocs) := by
  obtain ⟨m, hm, hne⟩ := decodeRagResponse_non200 sc body hsc
  refine ⟨⟨?_, ?_⟩, ⟨?_, ?_⟩, ⟨?_, ?_⟩, ⟨?_, ?_, ?_⟩⟩
  · simp [convertTextToGraph, hdesc, decodeStatusBody_non200 _ _ _ hsc]
  · simp [convertTextToGraph, hdesc, decodeStatusBody_non200 _ _ _ hsc]
  · simp [convertNodeRelationJsonToOpenCypherQuery, hgraph, decodeStatusBody_non200 _ _ _ hsc]
  · simp [convertNodeRelationJsonToOpenCypherQuery, hgraph, decodeStatusBody_non200 _ _ _ hsc]
  · simp [executeOpenCypherQueryForNeptune, hq, hep, decodeStatusBody_non200 _ _ _ hsc]
  · simp [executeOpenCypherQueryForNeptune, hq, hep, decodeStatusBody_non200 _ _ _ hsc]
  · simpa [ragFaissIndexOnClick, hrq, hm] using hne
  · simp [ragFaissIndexOnClick, hrq, hm]
  · simp [ragFaissIndexOnClick, hrq, hm]

/-- Witness for C2 (amended) at a concrete 500 envelope. -/
theorem non200_envelope_treated_as_failure_witness :
    isNum (JVal.jNum 500) 200 = false ∧
    (convertTextToGraph st4Init "employee roster"
        (.ok (.jEnc (mkEnvelope (JVal.jNum 500) (.jEnc exampleErrorBody))))).1.graph = none ∧
    (ragFaissIndexOnClick stRagInit "who works here"
        (.ok (.jEnc (mkEnvelope (JVal.jNum 500) (.jEnc exampleErrorBody))))).1.retrievedDocs
      = stRagInit.retrievedDocs := by
  have h := non200_envelope_treated_as_failure st4Init st3Init st3Init stRagInit
    "employee roster" "MERGE (c:Company)" "neptune-host" "who works here"
    (JVal.jNum 500) (.jEnc exampleErrorBody)
    (by decide) (by decide) (by decide) (by decide) rfl (by decide)
  exact ⟨by decide, h.1.2, h.2.2.2.2.2⟩

/-- C6: per invocation with non-blank inputs, the RAG query handler and
the Neptune execution handler issue their backend call exactly once,
and a failure of the called service is recorded as an error of that
same single invocation (no second attempt exists in the transition). -/
theorem external_call_issued_once (stR : RagPageState) (st3 : TalentGraphState)
    (rq q ep e : String) (remote : Except String JVal)
    (hrq : jsBlank rq = false) (hq : jsBlank q = false) (hep : jsBlank ep = false) :
    (ragFaissIndexOnClick stR rq remote).2 = 1 ∧
    (executeOpenCypherQueryForNeptune st3 q ep remote).2 = 1 ∧
    (ragFaissIndexOnClick stR rq (.error e)).1.ragError = ragClientErrorMessage ∧
    (executeOpenCypherQueryForNeptune st3 q ep (.error e)).1.error = some e := by
  refine ⟨?_, ?_, ?_, ?_⟩
  · simp [ragFaissIndexOnClick, hrq]
  · simp [executeOpenCypherQueryForNeptune, hq, hep]
  · simp [ragFaissIndexOnClick, hrq]
  · simp [executeOpenCypherQueryForNeptune, hq, hep]

/-- Witness for C6 at a concrete query and a failing backend call. -/
theorem external_call_issued_once_witness :
    jsBlank "who works here" = false ∧
    (ragFaissIndexOnClick stRagInit "who works here" (.error "network failure")).2 = 1 ∧
    (ragFaissIndexOnClick stRagInit "who works here"
        (.error "network failure")).1.ragError = ragClientErrorMessage := by
  have h := external_call_issued_once stRagInit st3Init "who works here" "MERGE (c:Company)"
    "neptune-host" "network failure" (.error "network failure")
    (by decide) (by decide) (by decide)
  exact ⟨by decide, h.1, h.2.2.1⟩

/-- C8: a successful converse turn pushes exactly two entries onto the
shared messages array - the user message before the backend call and
the assistant response after - leaving prior entries unchanged, and it
never goes through the setMessages state setter (in-place mutation). -/
theorem handleConverse_two_appends (st : ConversePageState) (sc : JVal)
    (fs : List (String × JVal)) (rm : JVal) (rest : List JVal)
    (hmsgs : jGetOpt (JVal.jObj fs) "messages" = JVal.jArr (rm :: rest)) :
    (handleConverse st (.ok (.jEnc (mkEnvelope sc (.jEnc (.jObj fs)))))).1.messages
      = st.messages ++ [mkUserMessage st.userMessage, rm] ∧
    (handleConverse st (.ok (.jEnc (mkEnvelope sc (.jEnc (.jObj fs)))))).2.1
      = st.messages ++ [mkUserMessage st.userMessage] ∧
    (handleConverse st (.ok (.jEnc (mkEnvelope sc (.jEnc (.jObj fs)))))).2.2 = false ∧
    (handleConverse st (.ok (.jEnc (mkEnvelope sc (.jEnc (.jObj fs)))))).1.userMessage = "" ∧
    (handleConverse st (.ok (.jEnc (mkEnvelope sc (.jEnc (.jObj fs)))))).1.error = st.error := by
  have ha : jsonParse (JVal.jEnc (mkEnvelope sc (.jEnc (.jObj fs))))
      = some (JVal.jObj [("statusCode", sc), ("body", JVal.jEnc (JVal.jObj fs))]) := rfl
  have hb : jsonParse (jGetOpt
        (JVal.jObj [("statusCode", sc), ("body", JVal.jEnc (JVal.jObj fs))]) "body")
      = some (JVal.jObj fs) := rfl
  refine ⟨?_, rfl, rfl, ?_, ?_⟩ <;>
    simp [handleConverse, ha, hb, hmsgs, jIndexOpt]

/-- Witness for C8 at a concrete prior conversation and a concrete
assistant reply. -/
theorem handleConverse_two_appends_witness :
    (handleConverse stConverseInit (.ok (.jEnc (mkEnvelope (JVal.jNum 200)
        (.jEnc (.jObj [("messages", JVal.jArr [assistantMessage])])))))).1.messages
      = stConverseInit.messages
          ++ [mkUserMessage stConverseInit.userMessage, assistantMessage] :=
  (handleConverse_two_appends stConverseInit (JVal.jNum 200)
    [("messages", JVal.jArr [assistantMessage])] assistantMessage [] rfl).1

/-- C9: with a non-blank description the convertTextToGraph handler
clears the displayed graph to null before issuing the backend query, so
on every failure path of the call the final graph state is null - an
error is never shown next to a stale graph. -/
theorem convertTextToGraph_clears_graph (st : GraphGenState) (desc : String)
    (remote : Except String JVal) (hdesc : jsBlank desc = false) :
    (convertTextToGraph st desc remote).2 = some { graph := none, error := none } ∧
    ((convertTextToGraph st desc remote).1.error ≠ none →
      (convertTextToGraph st desc remote).1.graph = none) := by
  constructor
  · simp [convertTextToGraph, hdesc]
  · cases remote with
    | error e => intro h; simp [convertTextToGraph, hdesc]
    | ok dataV =>
      cases hd : decodeStatusBody "Failed to generate graph: " dataV with
      | error m => intro h; simp [convertTextToGraph, hdesc, hd]
      | ok g =>
        intro h
        exfalso
        exact h (by simp [convertTextToGraph, hdesc, hd])

/-- Witness for C9 at a concrete description, a previously displayed
graph and a failing backend call. -/
theorem convertTextToGraph_clears_graph_witness :
    jsBlank "employee roster" = false ∧
    st4Init.graph ≠ none ∧
    (convertTextToGraph st4Init "employee roster" (.error "boom")).1.graph = none := by
  refine ⟨by decide, by simp [st4Init], ?_⟩
  exact (convertTextToGraph_clears_graph st4Init "employee roster"
    (.error "boom") (by decide)).2 (by decide)

/-- C10: a 200 envelope whose decoded body has status "error" is
treated as a failure by the RAG caller - the body message (or the
default text) is recorded as the error, the answer state holds the
cleared empty string rather than anything from the response, and the
retrieved-documents state is left unchanged. -/
theorem ragQuery_status_error_envelope (st : RagPageState) (rq : String) (pb : JVal)
    (hrq : jsBlank rq = false)
    (hst : isStr (jGetOpt pb "status") "error" = true) :
    (ragFaissIndexOnClick st rq
        (.ok (.jEnc (mkEnvelope (JVal.jNum 200) (.jEnc pb))))).1.ragError
      = jsOr (jGetOpt pb "message") (JVal.jStr "An unknown error occurred.") ∧
    (ragFaissIndexOnClick st rq
        (.ok (.jEnc (mkEnvelope (JVal.jNum 200) (.jEnc pb))))).1.ragResponse
      = JVal.jStr "" ∧
    (ragFaissIndexOnClick st rq
        (.ok (.jEnc (mkEnvelope (JVal.jNum 200) (.jEnc pb))))).1.retrievedDocs
      = st.retrievedDocs := by
  refine ⟨?_, ?_, ?_⟩ <;>
    simp [ragFaissIndexOnClick, hrq, decodeRagResponse_statusError pb hst]

/-- Witness for C10 at a concrete internal-error body and a page state
holding earlier retrieved documents. -/
theorem ragQuery_status_error_envelope_witness :
    (ragFaissIndexOnClick stRagInit "who works here"
        (.ok (.jEnc (mkEnvelope (JVal.jNum 200) (.jEnc ragErrorBody))))).1.ragError
      = JVal.jStr "FAISS index not found" ∧
    (ragFaissIndexOnClick stRagInit "who works here"
        (.ok (.jEnc (mkEnvelope (JVal.jNum 200) (.jEnc ragErrorBody))))).1.retrievedDocs
      = stRagInit.retrievedDocs := by
  have h := ragQuery_status_error_envelope stRagInit "who works here" ragErrorBody
    (by decide) rfl
  refine ⟨?_, h.2.2⟩
  rw [h.1]
  rfl
